import Mathlib

/-!
A shallow embedding of the NASA RAG starter scripts `rag_client.py`,
`llm_client.py` and `batch_evaluation.py`.

Modelling conventions:
* a Python `dict` with string keys and string values is an insertion-ordered
  association list (`Dict` below); `dict.get` is `pyGet`, `dict[k]` is
  `pyIndex` (which can raise `KeyError`);
* raising code is embedded in `Except PyError`;
* metric scores are rationals (Python's `statistics.mean` computes through
  exact fractions before the final float conversion);
* the external collaborators (the ChromaDB collection, the OpenAI chat
  endpoint, the ragas evaluator, the question file) are oracle functions and
  values collected in an environment record `Env`, and the external calls
  issued by `main` are recorded in an `ExtCall` trace.
-/

set_option maxRecDepth 2000

/-- Python exception values raised by the embedded code. -/
inductive PyError where
  | nameError (n : String)
  | valueError (msg : String)
  | fileNotFoundError (msg : String)
  | runtimeError (msg : String)
  | keyError (k : String)
  | indexError (msg : String)
  | backendError (msg : String)
  deriving DecidableEq, Repr

/-- A Python dict with string keys and string values, as an insertion-ordered
association list. -/
abbrev Dict := List (String × String)

/-- `d.get(k)`: the value at the first occurrence of key `k`, if any. -/
def pyGet (d : Dict) (k : String) : Option String :=
  (d.find? (fun p => p.1 == k)).map (fun p => p.2)

/-- `d.get(k, default)`. -/
def pyGetD (d : Dict) (k default : String) : String :=
  (pyGet d k).getD default

/-- `k in d`. -/
def has_key (d : Dict) (k : String) : Bool :=
  d.any (fun p => p.1 == k)

/-- `d[k]`, raising `KeyError` when the key is absent. -/
def pyIndex (d : Dict) (k : String) : Except PyError String :=
  match pyGet d k with
  | some v => Except.ok v
  | none => Except.error (PyError.keyError k)

/-- `l[n]` on a Python list, raising `IndexError` when out of range. -/
def pyIdx {α : Type} (l : List α) (n : Nat) : Except PyError α :=
  match l.get? n with
  | some a => Except.ok a
  | none => Except.error (PyError.indexError "list index out of range")

/-- Python truthiness of an optional string: `None` and `""` are falsy. -/
def truthy : Option String → Bool
  | none => false
  | some s => s != ""

/-! ## rag_client.format_context (rag_client.py lines 100-133) -/

/-- Lines 108-112 of `rag_client.py`: the value of the local variable
`doc_id`, i.e. `meta.get("doc_id") or meta.get("source") or f"DOC_{idx}"`
with Python's short-circuiting truthy `or`. -/
def doc_id_of (meta : Dict) (idx : Nat) : String :=
  if truthy (pyGet meta "doc_id") then (pyGet meta "doc_id").getD ""
  else if truthy (pyGet meta "source") then (pyGet meta "source").getD ""
  else "DOC_" ++ toString idx

/-- Python `str.title()` restricted to space-separated words: first letter of
each word uppercased, the rest lowercased.  (The only call sites apply it to
short metadata fields after replacing underscores by spaces, and the value is
never emitted because the header construction raises first.) -/
def pyTitle (s : String) : String :=
  String.intercalate " " ((s.splitOn " ").map (fun w => w.toLower.capitalize))

/-- Lines 116-121 of `rag_client.py`: the header f-string interpolates the
name `source`, which is not bound anywhere in `format_context`, so evaluating
the header raises `NameError` regardless of the passage's fields. -/
def header_value : Except PyError String :=
  Except.error (PyError.nameError "source")

/-- Python slicing `s[:n]`: the first `n` characters. -/
def pySlice (s : String) (n : Nat) : String :=
  String.mk (s.data.take n)

/-- Python `s.rstrip()`: drop trailing whitespace characters. -/
def pyRstrip (s : String) : String :=
  String.mk ((s.data.reverse.dropWhile Char.isWhitespace).reverse)

/-- Lines 126-128 of `rag_client.py`: a body longer than `max_length = 1200`
characters is cut to 1200 characters, right-stripped and given an ellipsis
marker. -/
def truncate_doc (doc : String) : String :=
  if doc.length > 1200 then pyRstrip (pySlice doc 1200) ++ "..." else doc

/-- One iteration of the `for idx, (doc, meta) in enumerate(zip(...), 1)`
loop body: the local `doc_id`, `mission` and `category` values are computed,
then the header raises `NameError` (see `header_value`), so the truncation
and the three appended parts are never reached at runtime. -/
def format_context_entry (idx : Nat) (doc : String) (meta : Dict) :
    Except PyError (List String) := do
  let _doc_id := doc_id_of meta idx
  let _mission := pyTitle ((pyGetD meta "mission" "unknown mission").replace "_" " ")
  let _category := pyTitle ((pyGetD meta "category" "general").replace "_" " ")
  let header ← header_value
  let doc := truncate_doc doc
  Except.ok [header, doc, ""]

/-- The loop of `format_context`, accumulating the parts appended to
`context_parts` (1-based enumeration, `zip` truncating to the shorter
sequence). -/
def format_context_parts : Nat → List (String × Dict) → Except PyError (List String)
  | _, [] => Except.ok []
  | idx, (doc, meta) :: rest => do
    let entry ← format_context_entry idx doc meta
    let tail ← format_context_parts (idx + 1) rest
    Except.ok (entry ++ tail)

/-- `rag_client.format_context(documents, metadatas)` (lines 100-133):
empty `documents` yields `""`; otherwise the parts are collected and joined
with newlines after the fixed banner line. -/
def format_context (documents : List String) (metadatas : List Dict) :
    Except PyError String :=
  if documents.isEmpty then Except.ok ""
  else do
    let parts ← format_context_parts 1 (documents.zip metadatas)
    Except.ok (String.intercalate "\n" ("### Retrieved NASA Context\n" :: parts))

/-- C3 (code_bug): the claim says `format_context` is total and returns a
context string for every non-empty input, but the header f-string references
the unbound name `source`, so the call returns normally only on empty input
and raises `NameError` on any non-empty `documents` sequence. -/
theorem c3_format_context_raises_on_nonempty :
    format_context [] [] = Except.ok "" ∧
    format_context ["hello"] [[]] = Except.error (PyError.nameError "source") := by
  exact ⟨rfl, rfl⟩

/-- C4 (code_bug): the internal `doc_id` local is indeed derived with
priority explicit `doc_id`, then `source`, then the synthesized `DOC_` rank
fallback, but that label is never shown in any header: for a passage with
neither field the call raises `NameError` instead of emitting a header
containing `DOC_1`. -/
theorem c4_label_priority_computed_but_never_emitted :
    doc_id_of [("doc_id", "D1"), ("source", "S1")] 7 = "D1" ∧
    doc_id_of [("source", "S1")] 7 = "S1" ∧
    doc_id_of [] 7 = "DOC_7" ∧
    format_context ["x"] [[]] = Except.error (PyError.nameError "source") := by
  exact ⟨rfl, rfl, rfl, rfl⟩

/-- Dropping under a predicate that rejects the replicated element keeps a
replicated list unchanged. -/
lemma dropWhile_replicate_of_neg {p : Char → Bool} {a : Char} (h : p a = false)
    (n : Nat) : List.dropWhile p (List.replicate n a) = List.replicate n a := by
  cases n with
  | zero => rfl
  | succ m => simp [List.replicate_succ, List.dropWhile_cons, h]

/-- C7 (code_bug): the truncation expression itself bounds a 2000-character
body at 1200 characters plus the 3-character ellipsis marker, but it is dead
code: the header raises `NameError` before the truncation line runs, so no
body segment (truncated or not) is ever emitted for such a passage. -/
theorem c7_truncation_is_unreachable :
    (truncate_doc (String.mk (List.replicate 2000 'A'))).length = 1203 ∧
    truncate_doc "short" = "short" ∧
    format_context [String.mk (List.replicate 2000 'A')] [[]] =
      Except.error (PyError.nameError "source") := by
  refine ⟨?_, rfl, rfl⟩
  have hlen : (String.mk (List.replicate 2000 'A')).length = 2000 := by
    show (List.replicate 2000 'A').length = 2000
    rw [List.length_replicate]
  unfold truncate_doc
  rw [if_pos (show (String.mk (List.replicate 2000 'A')).length > 1200 by
    rw [hlen]; norm_num)]
  have h1 : pySlice (String.mk (List.replicate 2000 'A')) 1200 =
      String.mk (List.replicate 1200 'A') := by
    show String.mk ((List.replicate 2000 'A').take 1200) = _
    rw [List.take_replicate]
    norm_num
  have h2 : pyRstrip (String.mk (List.replicate 1200 'A')) =
      String.mk (List.replicate 1200 'A') := by
    show String.mk (((List.replicate 1200 'A').reverse.dropWhile
      Char.isWhitespace).reverse) = _
    rw [List.reverse_replicate, dropWhile_replicate_of_neg (by decide),
      List.reverse_replicate]
  rw [h1, h2, String.length_append]
  have h3 : (String.mk (List.replicate 1200 'A')).length = 1200 := by
    show (List.replicate 1200 'A').length = 1200
    rw [List.length_replicate]
  rw [h3]
  rfl

/-- C9 (confirmed): `format_context` reads its arguments through pure lookups
and mutates nothing (the only mutation near this code path, the `setdefault`
pass, lives in `batch_evaluation.main`), so the embedding is a pure function
and two calls on the same `documents` and `metadatas` agree — including on
the `NameError` outcome for non-empty input. -/
theorem c9_format_context_deterministic :
    ∀ (documents : List String) (metadatas : List Dict),
      format_context documents metadatas = format_context documents metadatas :=
  fun _ _ => rfl

/-! ## llm_client.generate_response (llm_client.py lines 4-74) -/

/-- A chat message, a Python dict (normally with keys `role` and `content`). -/
abbrev Msg := Dict

/-- Build the two-entry dict for a chat message, in insertion order. -/
def mkMsg (role content : String) : Msg :=
  [("role", role), ("content", content)]

/-- The fixed system instruction block of `llm_client.py` (lines 26-35). -/
def system_prompt : String :=
  "You are a NASA mission expert specializing in space missions, " ++
  "spacecraft, astronomy, and planetary science.\n\n" ++
  "Rules:\n" ++
  "- Use ONLY the provided context to answer the question.\n" ++
  "- Cite sources using the format [DOC_ID] after each factual claim.\n" ++
  "- If the answer is not in the context, say \x27I don\x27t know based on the provided documents.\x27\n" ++
  "- Do NOT use outside knowledge.\n" ++
  "- Keep answers clear, concise, and educational."

/-- The first message appended to `messages`. -/
def system_message : Msg :=
  mkMsg "system" system_prompt

/-- The optional second system-level message carrying the retrieved context
(lines 47-51). -/
def context_message (context : String) : Msg :=
  mkMsg "system" ("Context to use for answering the question:\n" ++ context)

/-- The final user message carrying the current question (lines 59-62). -/
def user_message_of (q : String) : Msg :=
  mkMsg "user" q

/-- A history entry is forwarded only when it has both a `role` and a
`content` key (line 54-56 of `llm_client.py`). -/
def wellformed_msg (m : Msg) : Bool :=
  has_key m "role" && has_key m "content"

/-- `llm_client.generate_response` with the OpenAI chat endpoint abstracted
as the oracle `chat model messages temperature max_tokens`.  The message list
is built exactly as in lines 41-62: the system prompt, the context message
when `context` is truthy, the history entries carrying both keys (in order),
and finally the user question; the call uses temperature 0.3 and an output
bound of 600 tokens (lines 65-70). -/
def generate_response
    (chat : String → List Msg → ℚ → Nat → Except PyError String)
    (openai_key : String) (user_message : String) (context : String)
    (conversation_history : List Msg) (model : String) :
    Except PyError String :=
  let messages : List Msg := []
  let messages := messages ++ [mkMsg "system" system_prompt]
  let messages :=
    if context != "" then
      messages ++ [mkMsg "system" ("Context to use for answering the question:\n" ++ context)]
    else messages
  let messages := conversation_history.foldl
    (fun acc msg => if has_key msg "role" && has_key msg "content" then acc ++ [msg] else acc)
    messages
  let messages := messages ++ [user_message_of user_message]
  chat model messages (3 / 10) 600

/-- Folding conditional appends over a list equals appending the filtered
list. -/
lemma foldl_append_filter (p : Msg → Bool) :
    ∀ (hist : List Msg) (init : List Msg),
      hist.foldl (fun acc msg => if p msg then acc ++ [msg] else acc) init =
        init ++ hist.filter p := by
  intro hist
  induction hist with
  | nil => intro init; simp
  | cons m rest ih =>
    intro init
    by_cases h : p m
    · simp [List.foldl_cons, h, ih, List.filter_cons]
    · simp [List.foldl_cons, h, ih, List.filter_cons]

/-- C8 (corrected): the message sequence handed to the chat endpoint is the
fixed system instruction, then the context message exactly when `context` is
non-empty, then those history entries that carry both a `role` and a
`content` key (in their given order; entries lacking either key are silently
dropped), and finally the current question as the last user-role message. -/
theorem c8_message_sequence :
    ∀ (chat : String → List Msg → ℚ → Nat → Except PyError String)
      (key q ctx : String) (hist : List Msg) (model : String),
      generate_response chat key q ctx hist model =
        chat model
          ([system_message] ++
            (if ctx != "" then [context_message ctx] else []) ++
            hist.filter wellformed_msg ++ [user_message_of q])
          (3 / 10) 600 := by
  intro chat key q ctx hist model
  simp only [generate_response, List.nil_append]
  rw [foldl_append_filter (fun msg => has_key msg "role" && has_key msg "content") hist]
  by_cases h : ctx != ""
  · simp only [h, if_true, system_message, context_message, mkMsg,
      List.append_assoc, List.singleton_append, List.cons_append, List.nil_append]
    rfl
  · simp only [h, if_false, Bool.false_eq_true, ite_false, system_message, mkMsg,
      List.append_assoc, List.singleton_append, List.cons_append, List.nil_append]
    rfl

/-- C8 counterexample: with one history entry that lacks the `role`/`content`
keys, the code sends three messages (system, context, user) — not the four
the claim describes (system, context, the history entry, user): the probe
oracle reports the number of messages it received. -/
theorem c8_counterexample :
    generate_response (fun _ msgs _ _ => Except.ok (toString msgs.length))
      "k" "q" "c" [[("x", "y")]] "m" = Except.ok "3" ∧
    ([system_message, context_message "c", [("x", "y")], user_message_of "q"] :
      List Msg).length = 4 := by
  exact ⟨rfl, rfl⟩

/-! ## batch_evaluation.aggregate_metrics (batch_evaluation.py lines 44-56) -/

/-- A Python value stored in a metrics dict: a number (`int`/`float`, the
mean computation in `statistics` is exact over fractions, so rationals are a
faithful carrier) or a string (the `{error: message}` sentinel value). -/
inductive PyVal where
  | vnum (q : ℚ)
  | vstr (s : String)
  deriving DecidableEq, Repr

/-- The metrics mapping of one result: an insertion-ordered dict. -/
abbrev Metrics := List (String × PyVal)

/-- `isinstance(value, (int, float))`, returning the numeric payload. -/
def is_numeric : PyVal → Option ℚ
  | PyVal.vnum q => some q
  | PyVal.vstr _ => none

/-- One per-question record appended by `main` (lines 120-124): always has
the keys `question`, `answer` and `metrics`. -/
structure EvalResult where
  question : String
  answer : String
  metrics : Metrics
  deriving DecidableEq, Repr

/-- `aggregates.setdefault(metric, []).append(value)` (line 50): append to
the list stored at the first occurrence of the key, creating the entry at the
end of the dict when the key is new. -/
def setdefault_append : List (String × List ℚ) → String → ℚ → List (String × List ℚ)
  | [], k, v => [(k, [v])]
  | p :: rest, k, v =>
    if p.1 == k then (p.1, p.2 ++ [v]) :: rest
    else p :: setdefault_append rest k v

/-- The inner loop of `aggregate_metrics` (lines 48-50) over one result's
metrics dict: numeric values are collected, everything else is skipped. -/
def collect_metrics (acc : List (String × List ℚ)) (metrics : Metrics) :
    List (String × List ℚ) :=
  metrics.foldl
    (fun a kv =>
      match is_numeric kv.2 with
      | some q => setdefault_append a kv.1 q
      | none => a)
    acc

/-- `statistics.mean` on a non-empty list (exact over rationals). -/
def list_mean (l : List ℚ) : ℚ :=
  l.sum / (l.length : ℚ)

/-- `batch_evaluation.aggregate_metrics(results)` (lines 44-56): collect the
numeric values per metric name across all results, then map each metric with
a non-empty collection to the mean of its values.  `result.get("metrics",
{})` always finds the key because every record built by `main` carries it,
which the `EvalResult` structure encodes. -/
def aggregate_metrics (results : List EvalResult) : List (String × ℚ) :=
  let aggregates := results.foldl (fun acc r => collect_metrics acc r.metrics) []
  aggregates.filterMap
    (fun p => if p.2.isEmpty then none else some (p.1, list_mean p.2))

/-- The numeric values recorded for metric `m` inside one metrics dict, in
order. -/
def metric_nums (metrics : Metrics) (m : String) : List ℚ :=
  metrics.filterMap (fun kv => if kv.1 == m then is_numeric kv.2 else none)

/-- The numeric values recorded for metric `m` across a result list, in
order. -/
def numeric_values (results : List EvalResult) (m : String) : List ℚ :=
  (results.map (fun r => metric_nums r.metrics m)).flatten

/-- First-match association lookup on the working dict of value lists. -/
def assoc_vals : List (String × List ℚ) → String → List ℚ
  | [], _ => []
  | p :: rest, m => if p.1 == m then p.2 else assoc_vals rest m

/-- First-match association lookup on the aggregate dict. -/
def metric_of : List (String × ℚ) → String → Option ℚ
  | [], _ => none
  | p :: rest, m => if p.1 == m then some p.2 else metric_of rest m

/-- `setdefault_append` appends at the looked-up key and leaves every other
key unchanged. -/
lemma assoc_vals_setdefault (acc : List (String × List ℚ)) (k : String) (v : ℚ)
    (m : String) :
    assoc_vals (setdefault_append acc k v) m =
      if k == m then assoc_vals acc m ++ [v] else assoc_vals acc m := by
  induction acc with
  | nil =>
    by_cases h : k = m <;> simp [setdefault_append, assoc_vals, h]
  | cons p rest ih =>
    by_cases hp : p.1 = k
    · by_cases hm : k = m
      · simp [setdefault_append, assoc_vals, hp, hm]
      · have hpm : ¬ p.1 = m := by rw [hp]; exact hm
        simp [setdefault_append, assoc_vals, hp, hm, hpm]
    · by_cases hpm : p.1 = m
      · have hm : ¬ k = m := by
          intro hkm
          exact hp (by rw [hpm, hkm])
        have hmk : ¬ m = k := fun hmk => hm hmk.symm
        simp [setdefault_append, assoc_vals, hp, hpm, hm, hmk]
      · simp [setdefault_append, assoc_vals, hp, hpm, ih]

/-- Unfolding one step of the metrics fold. -/
lemma collect_metrics_cons (acc : List (String × List ℚ)) (kv : String × PyVal)
    (rest : Metrics) :
    collect_metrics acc (kv :: rest) =
      collect_metrics
        (match is_numeric kv.2 with
         | some q => setdefault_append acc kv.1 q
         | none => acc)
        rest := rfl

/-- Collecting one metrics dict appends, per metric name, exactly its numeric
values (in order) to the working collection. -/
lemma assoc_vals_collect (metrics : Metrics) :
    ∀ (acc : List (String × List ℚ)) (m : String),
      assoc_vals (collect_metrics acc metrics) m =
        assoc_vals acc m ++ metric_nums metrics m := by
  induction metrics with
  | nil => intro acc m; simp [collect_metrics, metric_nums]
  | cons kv rest ih =>
    intro acc m
    rw [collect_metrics_cons]
    match hq : is_numeric kv.2 with
    | some q =>
      simp only [hq]
      rw [ih, assoc_vals_setdefault]
      by_cases hk : kv.1 = m <;>
        simp [metric_nums, List.filterMap_cons, hk, hq, List.append_assoc]
    | none =>
      simp only [hq]
      rw [ih]
      by_cases hk : kv.1 = m <;>
        simp [metric_nums, List.filterMap_cons, hk, hq]

/-- The whole fold over the result list appends, per metric name, exactly the
numeric values collected across all results, in order. -/
lemma assoc_vals_fold (results : List EvalResult) :
    ∀ (acc : List (String × List ℚ)) (m : String),
      assoc_vals (results.foldl (fun acc r => collect_metrics acc r.metrics) acc) m =
        assoc_vals acc m ++ numeric_values results m := by
  induction results with
  | nil => intro acc m; simp [numeric_values]
  | cons r rest ih =>
    intro acc m
    simp only [List.foldl_cons]
    rw [ih, assoc_vals_collect]
    simp [numeric_values, List.append_assoc]

/-- `setdefault_append` keeps every stored value list non-empty. -/
lemma setdefault_nonempty (acc : List (String × List ℚ)) (k : String) (v : ℚ)
    (h : ∀ p ∈ acc, p.2 ≠ []) :
    ∀ p ∈ setdefault_append acc k v, p.2 ≠ [] := by
  induction acc with
  | nil =>
    intro p hp
    simp [setdefault_append] at hp
    simp [hp]
  | cons q rest ih =>
    intro p hp
    by_cases hq : q.1 = k
    · simp [setdefault_append, hq] at hp
      rcases hp with hp | hp
      · simp [hp]
      · exact h p (List.mem_cons_of_mem q hp)
    · simp only [setdefault_append, show (q.1 == k) = false by simp [hq]] at hp
      simp only [Bool.false_eq_true, if_false, List.mem_cons] at hp
      rcases hp with hp | hp
      · exact hp ▸ h q (List.mem_cons_self q rest)
      · exact ih (fun x hx => h x (List.mem_cons_of_mem q hx)) p hp

/-- `collect_metrics` keeps every stored value list non-empty. -/
lemma collect_nonempty (metrics : Metrics) :
    ∀ (acc : List (String × List ℚ)), (∀ p ∈ acc, p.2 ≠ []) →
      ∀ p ∈ collect_metrics acc metrics, p.2 ≠ [] := by
  induction metrics with
  | nil => intro acc h; simpa [collect_metrics] using h
  | cons kv rest ih =>
    intro acc h
    rw [collect_metrics_cons]
    match hq : is_numeric kv.2 with
    | some q =>
      simp only [hq]
      exact ih _ (setdefault_nonempty acc kv.1 q h)
    | none =>
      simp only [hq]
      exact ih _ h

/-- The whole fold keeps every stored value list non-empty (keys are created
only when a first numeric value arrives). -/
lemma fold_nonempty (results : List EvalResult) :
    ∀ (acc : List (String × List ℚ)), (∀ p ∈ acc, p.2 ≠ []) →
      ∀ p ∈ results.foldl (fun acc r => collect_metrics acc r.metrics) acc,
        p.2 ≠ [] := by
  induction results with
  | nil => intro acc h; simpa using h
  | cons r rest ih =>
    intro acc h
    simp only [List.foldl_cons]
    exact ih _ (collect_nonempty r.metrics acc h)

/-- When every stored value list is non-empty, the final dict comprehension
drops nothing and just maps each entry to its mean. -/
lemma filterMap_mean_eq_map (A : List (String × List ℚ))
    (h : ∀ p ∈ A, p.2 ≠ []) :
    A.filterMap (fun p => if p.2.isEmpty then none else some (p.1, list_mean p.2)) =
      A.map (fun p => (p.1, list_mean p.2)) := by
  induction A with
  | nil => rfl
  | cons p rest ih =>
    have hp : p.2.isEmpty = false := by
      simpa [List.isEmpty_iff] using h p (List.mem_cons_self p rest)
    have hrest := ih (fun x hx => h x (List.mem_cons_of_mem p hx))
    simp only [List.filterMap_cons, hrest, hp]
    simp

/-- Looking a metric up in the mapped dict returns the mean of its collected
values, and `none` exactly when nothing was collected for it. -/
lemma metric_of_mapped (A : List (String × List ℚ)) (h : ∀ p ∈ A, p.2 ≠ []) :
    ∀ m : String,
      metric_of (A.map (fun p => (p.1, list_mean p.2))) m =
        if (assoc_vals A m).isEmpty then none
        else some (list_mean (assoc_vals A m)) := by
  induction A with
  | nil => intro m; simp [metric_of, assoc_vals]
  | cons p rest ih =>
    intro m
    have hp : p.2.isEmpty = false := by
      simpa [List.isEmpty_iff] using h p (List.mem_cons_self p rest)
    have hrest := ih (fun x hx => h x (List.mem_cons_of_mem p hx))
    by_cases hm : p.1 = m
    · simp [metric_of, assoc_vals, hm, hp]
    · simp [metric_of, assoc_vals, hm, hrest]

/-- The concrete aggregation example: three numeric faithfulness scores and
one error-sentinel record. -/
def example_results : List EvalResult :=
  [ { question := "q1", answer := "a1", metrics := [("faithfulness", PyVal.vnum (3 / 5))] },
    { question := "q2", answer := "a2", metrics := [("faithfulness", PyVal.vnum (4 / 5))] },
    { question := "q3", answer := "a3", metrics := [("faithfulness", PyVal.vnum 1)] },
    { question := "q4", answer := "a4", metrics := [("error", PyVal.vstr "ragas failed")] } ]

/-- C6 (confirmed): for every result list and metric name, the aggregate maps
the metric to the arithmetic mean of exactly the numeric values recorded for
it across the results, in order — non-numeric values such as the error
sentinel are excluded, results lacking the metric contribute nothing, and a
metric with no numeric value at all is absent; concretely, scores 0.6, 0.8,
1.0 next to an error-sentinel record aggregate to 0.8. -/
theorem c6_aggregate_is_mean_of_numeric_values :
    (∀ (results : List EvalResult) (m : String),
      metric_of (aggregate_metrics results) m =
        if (numeric_values results m).isEmpty then none
        else some (list_mean (numeric_values results m))) ∧
    aggregate_metrics example_results = [("faithfulness", (4 : ℚ) / 5)] := by
  constructor
  · intro results m
    have hinv := fold_nonempty results [] (by intro p hp; cases hp)
    unfold aggregate_metrics
    rw [filterMap_mean_eq_map _ hinv, metric_of_mapped _ hinv]
    have hvals := assoc_vals_fold results [] m
    simp only [assoc_vals] at hvals
    rw [hvals]
    simp
  · show aggregate_metrics example_results = [("faithfulness", (4 : ℚ) / 5)]
    simp [aggregate_metrics, example_results, collect_metrics, setdefault_append,
      is_numeric, list_mean, List.filterMap_cons]
    norm_num

/-! ## rag_client.retrieve_documents (rag_client.py lines 78-97) -/

/-- The shape of a ChromaDB query response: `documents` and `metadatas` are
per-query lists of per-passage lists, index-aligned by position. -/
structure QueryResult where
  documents : List (List String)
  metadatas : List (List Dict)
  deriving DecidableEq, Repr

/-- Lines 86-89 of `rag_client.py`: the optional metadata filter — built only
when `mission_filter` is truthy and its lowercasing is not one of the
wildcard sentinels `"all"`/`"any"`. -/
def where_filter_of (mission_filter : Option String) : Option Dict :=
  match mission_filter with
  | none => none
  | some mf =>
    if mf != "" && !(["all", "any"].contains mf.toLower) then some [("mission", mf)]
    else none

/-- `rag_client.retrieve_documents(collection, query, n_results,
mission_filter)` with `collection.query` abstracted as the oracle `queryFn`
(which may raise, or return `None` per the `Optional[Dict]` annotation).
There is no `try`/`except` in the function body: the oracle's outcome is
returned unchanged. -/
def retrieve_documents
    (queryFn : String → Nat → Option Dict → Except PyError (Option QueryResult))
    (query : String) (n_results : Nat) (mission_filter : Option String) :
    Except PyError (Option QueryResult) :=
  queryFn query n_results (where_filter_of mission_filter)

/-- C2 (corrected, amended claim): an error raised by the vector store's
query inside `retrieve_documents` propagates unchanged to the caller — the
function performs no catching and never substitutes an empty result. -/
theorem c2_retrieve_propagates_errors :
    ∀ (queryFn : String → Nat → Option Dict → Except PyError (Option QueryResult))
      (query : String) (n_results : Nat) (mission_filter : Option String)
      (e : PyError),
      queryFn query n_results (where_filter_of mission_filter) = Except.error e →
      retrieve_documents queryFn query n_results mission_filter = Except.error e := by
  intro queryFn query n_results mission_filter e h
  unfold retrieve_documents
  exact h

/-- A query oracle standing for a backend whose transport fails. -/
def failing_query_oracle :
    String → Nat → Option Dict → Except PyError (Option QueryResult) :=
  fun _ _ _ => Except.error (PyError.backendError "connection refused")

/-- C2 witness: applying `c2_retrieve_propagates_errors` to the concrete
failing oracle. -/
theorem c2_retrieve_propagates_errors_witness :
    retrieve_documents failing_query_oracle "q" 3 none =
      Except.error (PyError.backendError "connection refused") :=
  c2_retrieve_propagates_errors failing_query_oracle "q" 3 none
    (PyError.backendError "connection refused") rfl

/-- C2 counterexample to the claim as stated: with a backend raising a
transport error, `retrieve_documents` returns that error — not an
empty-result response; in particular the outcome differs from both a `None`
response and an empty `documents` response. -/
theorem c2_counterexample :
    retrieve_documents failing_query_oracle "nasa" 3 none =
      Except.error (PyError.backendError "connection refused") ∧
    retrieve_documents failing_query_oracle "nasa" 3 none ≠ Except.ok none ∧
    retrieve_documents failing_query_oracle "nasa" 3 none ≠
      Except.ok (some { documents := [], metadatas := [] }) := by
  refine ⟨rfl, ?_, ?_⟩ <;> intro h <;> cases h

/-! ## The setdefault pass of batch_evaluation.main (lines 97-99) -/

/-- `meta.setdefault("source", "unknown source")`: a new key is appended at
the end of the dict only when absent; a present key keeps its value, even a
falsy one. -/
def ensure_source (meta : Dict) : Dict :=
  if has_key meta "source" then meta else meta ++ [("source", "unknown source")]

/-- A key that is absent keeps lookups in the appended tail. -/
lemma pyGet_append (d e : Dict) (k : String) :
    pyGet (d ++ e) k = match pyGet d k with
      | some v => some v
      | none => pyGet e k := by
  induction d with
  | nil => simp [pyGet]
  | cons p rest ih =>
    by_cases h : p.1 = k
    · simp [pyGet, List.find?_cons, h]
    · simpa [pyGet, List.find?_cons, h] using ih

/-- `has_key` decides whether `pyGet` finds something. -/
lemma pyGet_eq_none_of_has_key_false (d : Dict) (k : String)
    (h : has_key d k = false) : pyGet d k = none := by
  induction d with
  | nil => simp [pyGet]
  | cons p rest ih =>
    simp only [has_key, List.any_cons, Bool.or_eq_false_iff] at h
    simp only [pyGet, List.find?_cons, h.1]
    exact ih (by simp [has_key, h.2])

/-- C10 (corrected, amended claim): the batch loop's `setdefault` pass
guarantees a `source` key on every metadata dict handed to the formatting
step, filling in `"unknown source"` when the key was absent; for a dict that
had no `source` key and no truthy `doc_id`, the derived label is therefore
`"unknown source"`, not the synthesized `DOC_` fallback.  (A dict whose
pre-existing `source` value is falsy keeps it and still selects the
fallback — see the counterexample.) -/
theorem c10_setdefault_guarantees_source_key :
    (∀ (metadatas : List Dict), ∀ meta ∈ metadatas.map ensure_source,
      has_key meta "source" = true) ∧
    (∀ meta : Dict, has_key meta "source" = false →
      pyGet (ensure_source meta) "source" = some "unknown source") ∧
    (∀ (meta : Dict) (idx : Nat), has_key meta "source" = false →
      truthy (pyGet meta "doc_id") = false →
      doc_id_of (ensure_source meta) idx = "unknown source") := by
  refine ⟨?_, ?_, ?_⟩
  · intro metadatas meta hmem
    rcases List.mem_map.mp hmem with ⟨m, _, rfl⟩
    by_cases h : has_key m "source"
    · simpa [ensure_source, h]
    · have h' : has_key m "source" = false := by simpa using h
      simp only [ensure_source, h', Bool.false_eq_true, if_false]
      simp [has_key, List.any_append]
  · intro meta h
    simp only [ensure_source, h, Bool.false_eq_true, if_false]
    rw [pyGet_append, pyGet_eq_none_of_has_key_false meta "source" h]
    simp [pyGet]
  · intro meta idx h hdoc
    have hsrc : pyGet (ensure_source meta) "source" = some "unknown source" := by
      simp only [ensure_source, h, Bool.false_eq_true, if_false]
      rw [pyGet_append, pyGet_eq_none_of_has_key_false meta "source" h]
      simp [pyGet]
    have hdoc2 : pyGet (ensure_source meta) "doc_id" = pyGet meta "doc_id" := by
      simp only [ensure_source, h, Bool.false_eq_true, if_false]
      rw [pyGet_append]
      match hm : pyGet meta "doc_id" with
      | some v => rfl
      | none => simp [pyGet]
    unfold doc_id_of
    rw [hdoc2, hdoc, hsrc]
    simp [truthy]

/-- C10 witness: the amended guarantees at the concrete empty metadata
dict. -/
theorem c10_setdefault_guarantees_source_key_witness :
    has_key (ensure_source []) "source" = true ∧
    pyGet (ensure_source []) "source" = some "unknown source" ∧
    doc_id_of (ensure_source []) 1 = "unknown source" :=
  ⟨c10_setdefault_guarantees_source_key.1 [[]] (ensure_source [])
      (List.mem_map.mpr ⟨[], List.mem_singleton.mpr rfl, rfl⟩),
    c10_setdefault_guarantees_source_key.2.1 [] rfl,
    c10_setdefault_guarantees_source_key.2.2 [] 1 rfl rfl⟩

/-- C10 counterexample to the claim as stated: a metadata dict whose `source`
value is the empty string is left unchanged by the `setdefault` pass, its
`source` field is not truthy, and the synthesized fallback `DOC_1` is still
selected for it on the batch path. -/
theorem c10_counterexample :
    ensure_source [("source", "")] = [("source", "")] ∧
    truthy (pyGet [("source", "")] "source") = false ∧
    doc_id_of [("source", "")] 1 = "DOC_1" := by
  refine ⟨rfl, rfl, rfl⟩

/-! ## batch_evaluation.main (batch_evaluation.py lines 16-146) -/

/-- `N_RESULTS = 3` (line 21). -/
def N_RESULTS : Nat := 3

/-- `MODEL_NAME = "gpt-3.5-turbo"` (line 22). -/
def MODEL_NAME : String := "gpt-3.5-turbo"

/-- `load_test_questions` (lines 30-41): missing file raises
`FileNotFoundError`; a parsed question list shorter than 5 raises
`ValueError`; otherwise the parsed list is returned.  The argument stands for
the parsed contents of `test_questions.json`, `none` when the file does not
exist. -/
def load_test_questions (file_questions : Option (List Dict)) :
    Except PyError (List Dict) :=
  match file_questions with
  | none => Except.error (PyError.fileNotFoundError "Test questions file not found")
  | some qs =>
    if qs.length < 5 then
      Except.error (PyError.valueError "Evaluation dataset must contain at least 5 questions")
    else Except.ok qs

/-- The external collaborators of one batch run: the parsed question file,
the discovered backends dict, the API key, and the three network oracles
(vector store query, chat completion, ragas evaluation). -/
structure Env where
  file_questions : Option (List Dict)
  backends : List (String × Dict)
  openai_key : String
  queryFn : String → Nat → Option Dict → Except PyError (Option QueryResult)
  chat : String → List Msg → ℚ → Nat → Except PyError String
  evalFn : String → String → List String → Except PyError Metrics

/-- One recorded external interaction of a batch run. -/
inductive ExtCall where
  | discovery
  | initCollection (path collection : String)
  | query (question : String)
  | chatCall (question : String)
  | evalCall (question : String)
  deriving DecidableEq, Repr

/-- The message of a Python exception, as `str(e)` would render it (used for
the `{"error": str(e)}` sentinel of line 118). -/
def pyErrMsg : PyError → String
  | PyError.nameError n => "name \x27" ++ n ++ "\x27 is not defined"
  | PyError.valueError m => m
  | PyError.fileNotFoundError m => m
  | PyError.runtimeError m => m
  | PyError.keyError k => k
  | PyError.indexError m => m
  | PyError.backendError m => m

/-- The tail of one loop iteration of `main` (lines 94-126), entered once the
skip guard has passed: index the per-query lists, run the `setdefault` pass,
format the context (which can raise), generate the answer, evaluate —
catching only evaluation errors into the `{"error": ...}` sentinel — and
build the appended record.  Returns the produced record (if any) and the
external calls issued. -/
def run_one_after_retrieval (env : Env) (question : String) (res : QueryResult) :
    Except PyError (Option EvalResult) × List ExtCall :=
  if res.documents.isEmpty then (Except.ok none, [])
  else
    match pyIdx res.documents 0 with
    | Except.error e => (Except.error e, [])
    | Except.ok documents =>
      match pyIdx res.metadatas 0 with
      | Except.error e => (Except.error e, [])
      | Except.ok metadatas =>
        let metadatas := metadatas.map ensure_source
        match format_context documents metadatas with
        | Except.error e => (Except.error e, [])
        | Except.ok context =>
          match generate_response env.chat env.openai_key question context [] MODEL_NAME with
          | Except.error e => (Except.error e, [ExtCall.chatCall question])
          | Except.ok answer =>
            let metrics :=
              match env.evalFn question answer documents with
              | Except.ok m => m
              | Except.error e => [("error", PyVal.vstr (pyErrMsg e))]
            (Except.ok (some { question := question, answer := answer, metrics := metrics }),
              [ExtCall.chatCall question, ExtCall.evalCall question])

/-- One loop iteration of `main` (lines 80-126): read `item["question"]`,
retrieve, skip (without a record) when the response is `None` or its
`documents` container is falsy, otherwise continue with
`run_one_after_retrieval`. -/
def run_one (env : Env) (item : Dict) :
    Except PyError (Option EvalResult) × List ExtCall :=
  match pyIndex item "question" with
  | Except.error e => (Except.error e, [])
  | Except.ok question =>
    match retrieve_documents env.queryFn question N_RESULTS none with
    | Except.error e => (Except.error e, [ExtCall.query question])
    | Except.ok none => (Except.ok none, [ExtCall.query question])
    | Except.ok (some res) =>
      let step := run_one_after_retrieval env question res
      (step.1, ExtCall.query question :: step.2)

/-- The `for idx, item in enumerate(questions, start=1)` loop of `main`:
records are appended in iteration order, skipped iterations append nothing,
and an uncaught exception aborts the whole run. -/
def main_loop (env : Env) : List Dict → Except PyError (List EvalResult) × List ExtCall
  | [] => (Except.ok [], [])
  | item :: rest =>
    match run_one env item with
    | (Except.error e, tr) => (Except.error e, tr)
    | (Except.ok none, tr) =>
      let next := main_loop env rest
      (next.1, tr ++ next.2)
    | (Except.ok (some r), tr) =>
      match main_loop env rest with
      | (Except.ok rs, tr2) => (Except.ok (r :: rs), tr ++ tr2)
      | (Except.error e, tr2) => (Except.error e, tr ++ tr2)

/-- The report persisted at the end of `main` (lines 136-140). -/
structure Report where
  per_question : List EvalResult
  aggregate : List (String × ℚ)
  deriving DecidableEq, Repr

/-- `batch_evaluation.main` (lines 60-142): load and validate the question
set, discover backends (raising when none is found), select the first
backend, initialize the collection, run the loop, aggregate, and return the
report object that is dumped to disk.  The second component records every
external call issued, in order. -/
def batch_main (env : Env) : Except PyError Report × List ExtCall :=
  match load_test_questions env.file_questions with
  | Except.error e => (Except.error e, [])
  | Except.ok questions =>
    if env.backends.isEmpty then
      (Except.error (PyError.runtimeError "No ChromaDB backends found"), [ExtCall.discovery])
    else
      match pyIdx (env.backends.map Prod.snd) 0 with
      | Except.error e => (Except.error e, [ExtCall.discovery])
      | Except.ok backend =>
        match pyIndex backend "display_name" with
        | Except.error e => (Except.error e, [ExtCall.discovery])
        | Except.ok _ =>
          match pyIndex backend "path", pyIndex backend "collection" with
          | Except.error e, _ => (Except.error e, [ExtCall.discovery])
          | Except.ok _, Except.error e => (Except.error e, [ExtCall.discovery])
          | Except.ok path, Except.ok coll =>
            match main_loop env questions with
            | (Except.error e, trL) =>
              (Except.error e, ExtCall.discovery :: ExtCall.initCollection path coll :: trL)
            | (Except.ok per_question, trL) =>
              (Except.ok { per_question := per_question,
                           aggregate := aggregate_metrics per_question },
                ExtCall.discovery :: ExtCall.initCollection path coll :: trL)

/-- The record (if any) that one question item contributes to
`per_question_results`. -/
def keep (env : Env) (item : Dict) : Option EvalResult :=
  match run_one env item with
  | (Except.ok (some r), _) => some r
  | _ => none

/-- The skip guard of line 90: `not retrieval or not
retrieval.get("documents")`. -/
def retrieval_skipped : Except PyError (Option QueryResult) → Bool
  | Except.ok none => true
  | Except.ok (some res) => res.documents.isEmpty
  | Except.error _ => false

/-- When the loop finishes without an exception, the collected records are
exactly the per-item contributions, in input order. -/
lemma main_loop_ok (env : Env) :
    ∀ (qs : List Dict) (rs : List EvalResult) (tr : List ExtCall),
      main_loop env qs = (Except.ok rs, tr) → rs = qs.filterMap (keep env) := by
  intro qs
  induction qs with
  | nil =>
    intro rs tr h
    simp only [main_loop, Prod.mk.injEq, Except.ok.injEq] at h
    simp [← h.1]
  | cons item rest ih =>
    intro rs tr h
    simp only [main_loop] at h
    cases hro : run_one env item with
    | mk exc tr1 =>
      rw [hro] at h
      cases exc with
      | error e => simp at h
      | ok o =>
        cases o with
        | none =>
          cases hml : main_loop env rest with
          | mk res2 tr2 =>
            rw [hml] at h
            cases res2 with
            | error e => simp at h
            | ok rs2 =>
              simp only [Prod.mk.injEq, Except.ok.injEq] at h
              rw [List.filterMap_cons]
              simp only [keep, hro]
              rw [← h.1]
              exact ih rs2 tr2 hml
        | some r =>
          cases hml : main_loop env rest with
          | mk res2 tr2 =>
            rw [hml] at h
            cases res2 with
            | error e => simp at h
            | ok rs2 =>
              simp only [Prod.mk.injEq, Except.ok.injEq] at h
              rw [List.filterMap_cons]
              simp only [keep, hro]
              rw [← h.1, ih rs2 tr2 hml]

/-- C1 (corrected, amended claim): in a batch run that completes, the
`per_question` list contains, in input order, exactly one entry for each
input question not skipped by the empty-retrieval guard; a question whose
retrieval yields `None` or an empty `documents` container is skipped with a
logged warning and contributes no entry, so the record count can fall below
the question count. -/
theorem c1_per_question_characterization :
    (∀ (env : Env) (qs : List Dict) (report : Report) (tr : List ExtCall),
      env.file_questions = some qs →
      batch_main env = (Except.ok report, tr) →
      report.per_question = qs.filterMap (keep env)) ∧
    (∀ (env : Env) (item : Dict) (q : String),
      pyIndex item "question" = Except.ok q →
      retrieval_skipped (retrieve_documents env.queryFn q N_RESULTS none) = true →
      keep env item = none) := by
  constructor
  · intro env qs report tr hfile hmain
    by_cases hlen : qs.length < 5
    · exfalso
      have hbad : batch_main env =
          (Except.error (PyError.valueError
            "Evaluation dataset must contain at least 5 questions"), []) := by
        simp [batch_main, load_test_questions, hfile, hlen]
      rw [hbad] at hmain
      simp at hmain
    · have hload : load_test_questions env.file_questions = Except.ok qs := by
        simp [load_test_questions, hfile, hlen]
      unfold batch_main at hmain
      rw [hload] at hmain
      by_cases hb : env.backends.isEmpty
      · simp [hb] at hmain
      · have hb' : env.backends.isEmpty = false := by simpa using hb
        simp only [hb', Bool.false_eq_true, if_false] at hmain
        cases hidx : pyIdx (env.backends.map Prod.snd) 0 with
        | error e => simp only [hidx] at hmain; simp at hmain
        | ok backend =>
          simp only [hidx] at hmain
          cases hdn : pyIndex backend "display_name" with
          | error e => simp only [hdn] at hmain; simp at hmain
          | ok dn =>
            simp only [hdn] at hmain
            cases hpa : pyIndex backend "path" with
            | error e => simp only [hpa] at hmain; simp at hmain
            | ok path =>
              simp only [hpa] at hmain
              cases hco : pyIndex backend "collection" with
              | error e => simp only [hco] at hmain; simp at hmain
              | ok coll =>
                simp only [hco] at hmain
                cases hml : main_loop env qs with
                | mk res trL =>
                  simp only [hml] at hmain
                  cases res with
                  | error e => simp at hmain
                  | ok per_q =>
                    simp only [Prod.mk.injEq, Except.ok.injEq] at hmain
                    rw [← hmain.1]
                    exact main_loop_ok env qs per_q trL hml
  · intro env item q hq hskip
    have hrun : run_one env item = (Except.ok none, [ExtCall.query q]) := by
      unfold run_one
      rw [hq]
      cases hr : retrieve_documents env.queryFn q N_RESULTS none with
      | error e =>
        exfalso
        rw [hr] at hskip
        simp [retrieval_skipped] at hskip
      | ok o =>
        cases o with
        | none => simp [hr]
        | some res =>
          rw [hr] at hskip
          simp only [retrieval_skipped] at hskip
          have hstep : run_one_after_retrieval env q res = (Except.ok none, []) := by
            simp [run_one_after_retrieval, hskip]
          simp [hr, hstep]
    simp [keep, hrun]

/-- The five-question set used by the concrete batch runs below. -/
def qs_cex : List Dict :=
  [[("question", "Q1")], [("question", "Q2")], [("question", "Q3")],
   [("question", "Q4")], [("question", "Q5")]]

/-- A concrete environment: five questions accepted by validation, one
backend, retrieval finds a documents container with zero passages for
`Q2`-`Q5` and returns an empty container for `Q1` (so the guard skips `Q1`),
generation and evaluation succeed. -/
def env_cex : Env :=
  { file_questions := some qs_cex,
    backends := [("chroma_db",
      [("path", "chroma_db"), ("collection", "nasa_docs"),
       ("display_name", "chroma_db"), ("document_count", "7")])],
    openai_key := "k",
    queryFn := fun q _ _ =>
      if q == "Q1" then Except.ok (some { documents := [], metadatas := [] })
      else Except.ok (some { documents := [[]], metadatas := [[]] }),
    chat := fun _ _ _ _ => Except.ok "answer",
    evalFn := fun _ _ _ => Except.ok [("relevance", PyVal.vnum 1)] }

/-- Project the per-question record count out of a finished run. -/
def per_question_count (x : Except PyError Report) : Option Nat :=
  match x with
  | Except.ok r => some r.per_question.length
  | Except.error _ => none

/-- C1 counterexample to the claim as stated: a five-question run in which
one question's retrieval yields zero passages completes with only four
`per_question` records — the skipped question contributes no entry, so the
record count does not equal the input question count. -/
theorem c1_counterexample :
    per_question_count (batch_main env_cex).1 = some 4 ∧ qs_cex.length = 5 := by
  exact ⟨rfl, rfl⟩

/-- The report produced by the concrete run above. -/
def report_cex : Report :=
  match (batch_main env_cex).1 with
  | Except.ok r => r
  | Except.error _ => { per_question := [], aggregate := [] }

/-- C1 witness: the amended characterization instantiated at the concrete
run, and the skip clause instantiated at the skipped question `Q1`. -/
theorem c1_per_question_characterization_witness :
    report_cex.per_question = qs_cex.filterMap (keep env_cex) ∧
    keep env_cex [("question", "Q1")] = none :=
  ⟨c1_per_question_characterization.1 env_cex qs_cex report_cex
      (batch_main env_cex).2 rfl rfl,
    c1_per_question_characterization.2 env_cex [("question", "Q1")] "Q1" rfl rfl⟩

/-- C5 (confirmed): a question set with fewer than 5 entries makes the batch
run raise `ValueError` during input validation, before any external call
(backend discovery, collection initialization, retrieval, generation or
evaluation) is issued — the recorded call trace is empty. -/
theorem c5_fails_fast_before_external_calls :
    ∀ (env : Env) (qs : List Dict),
      env.file_questions = some qs →
      qs.length < 5 →
      batch_main env =
        (Except.error (PyError.valueError
          "Evaluation dataset must contain at least 5 questions"),
         ([] : List ExtCall)) := by
  intro env qs hfile hlen
  simp [batch_main, load_test_questions, hfile, hlen]

/-- A three-question set, below the validation threshold. -/
def qs_few : List Dict :=
  [[("question", "A")], [("question", "B")], [("question", "C")]]

/-- A concrete environment whose question file holds only three questions. -/
def env_few : Env :=
  { file_questions := some qs_few,
    backends := [("chroma_db",
      [("path", "chroma_db"), ("collection", "nasa_docs"),
       ("display_name", "chroma_db"), ("document_count", "7")])],
    openai_key := "k",
    queryFn := fun _ _ _ => Except.ok (some { documents := [[]], metadatas := [[]] }),
    chat := fun _ _ _ _ => Except.ok "answer",
    evalFn := fun _ _ _ => Except.ok [("relevance", PyVal.vnum 1)] }

/-- C5 witness: the fail-fast theorem instantiated at the three-question
environment. -/
theorem c5_fails_fast_before_external_calls_witness :
    batch_main env_few =
      (Except.error (PyError.valueError
        "Evaluation dataset must contain at least 5 questions"),
       ([] : List ExtCall)) :=
  c5_fails_fast_before_external_calls env_few qs_few rfl (by decide)
